import Mathlib

/-! Shallow embedding of the core of `src/traffic-sender.js` (the
`TrafficSession` class): concurrency planner, request executor with outcome
classification, batch scheduler counters, retry queue, performance tracker,
stop and finalization.  Wall-clock time and the network transport are
abstracted: a fetch oracle maps (task id, attempt index) to the transport
outcome of that attempt, and the duration / elapsed-seconds values fed to the
performance tracker are fixed at 0 ms and 1 s - none of the fields the
theorems read (counters, success rate, retry queue contents) depend on them. -/

namespace TrafficSender

/-- Transport-level result of one `fetch` attempt: an HTTP response with a
status code, or a network/transport error (a rejected promise). -/
inductive FetchResult where
  | http (status : Nat)
  | transportError
deriving DecidableEq

/-- `response.ok` of the Fetch API: status in the range 200-299. -/
def respOk (status : Nat) : Bool :=
  decide (200 ≤ status ∧ status < 300)

/-- Outcome classification of a single attempt, from the body of
`executeRequest` (src/traffic-sender.js lines 197-253): `true` means the
attempt returns a success result, `false` means it throws a retryable error.
A status of 500 or more throws; a 4xx status throws unless it is 403 or 404,
which return success immediately (with a note); any other non-ok status
(1xx/3xx) falls through the status checks and returns success, as does every
2xx response.  A transport error rejects the fetch promise, hence throws. -/
def attemptSucceeds : FetchResult → Bool
  | .transportError => false
  | .http s =>
      if !(respOk s) then
        if 500 ≤ s then false
        else if 400 ≤ s then decide (s = 404 ∨ s = 403)
        else true
      else true

/-- The retry loop of `executeRequest` (lines 197-277): attempts are numbered
from `attempt` and at most `remaining` of them are made; the first successful
attempt resolves the promise with `true`, exhausting every attempt rethrows
the last error (`false`). -/
def executeAttempts (oracle : Nat → FetchResult) : Nat → Nat → Bool
  | _, 0 => false
  | attempt, remaining + 1 =>
      if attemptSucceeds (oracle attempt) then true
      else executeAttempts oracle (attempt + 1) remaining

/-- `executeRequest` distilled to its resolution value: `true` iff the task
resolves successfully within `maxAttempts = config.maxRetries` attempts,
where `oracle a` is the transport outcome of the task's attempt `a`
(0-based). -/
def executeRequest (oracle : Nat → FetchResult) (maxAttempts : Nat) : Bool :=
  executeAttempts oracle 0 maxAttempts

/-- `adjustConcurrency` (lines 60-78): clamp `floor(1000 / delay)` into
`[1, 10]`, then cap by proxy-quality tier. -/
def adjustConcurrency (delay : Nat) (proxyQuality : String) : Nat :=
  let baseConcurrency := max 1 (min 10 (1000 / delay))
  if proxyQuality = "premium" then min 8 baseConcurrency
  else if proxyQuality = "balanced" then min 12 baseConcurrency
  else if proxyQuality = "aggressive" then min 15 baseConcurrency
  else min 5 baseConcurrency

/-- Modelled from the spec: the per-tier concurrency cap table
(premium 8, balanced 12, aggressive 15, any other value 5). -/
def tierCap (proxyQuality : String) : Nat :=
  if proxyQuality = "premium" then 8
  else if proxyQuality = "balanced" then 12
  else if proxyQuality = "aggressive" then 15
  else 5

/-- Modelled from the spec: planned width `min(cap(tier),
clamp(floor(1000/delayMs), 1, 10))`. -/
def plannerSpec (delay : Nat) (proxyQuality : String) : Nat :=
  min (tierCap proxyQuality) (max 1 (min 10 (1000 / delay)))

/-- Backoff before a retry (line 273): `Math.pow(2, attempt) * 100 +
Math.random() * 100`, where `r` is the uniform draw in `[0, 1)`. -/
def backoffDelay (attempt : Nat) (r : ℚ) : ℚ :=
  2 ^ attempt * 100 + r * 100

/-- Mean of `backoffDelay attempt r` over the uniform jitter draw
`r ∈ [0, 1)`: the midpoint of the interval `[2^a*100, 2^a*100 + 100)`. -/
def expectedBackoff (attempt : Nat) : ℚ :=
  2 ^ attempt * 100 + 50

/-- `adaptiveDelay` (lines 385-399): the inter-batch wait.  `j` is the jitter
draw `Math.random() * 0.4 + 0.8 ∈ [0.8, 1.2)`, applied only when jitter is
enabled.  Note the jitter multiplication happens after the 200 ms floor. -/
def adaptiveDelay (delayMs : ℚ) (batchIndex sent total : Nat)
    (enableJitter : Bool) (j : ℚ) : ℚ :=
  let d := delayMs
  let d := if 10 < batchIndex then
      max 200 (d * (1 - ((sent : ℚ) / (total : ℚ)) * 0.3))
    else d
  if enableJitter then d * j else d

/-- C2: for every positive delay and every proxy-quality tier, the planner
returns exactly `min(cap(tier), clamp(floor(1000/delayMs), 1, 10))` with the
cap table premium 8 / balanced 12 / aggressive 15 / other 5, the width is
always at least 1, and delay 1000 with tier "balanced" yields width 1. -/
theorem planner_matches_spec (delay : Nat) (q : String) (hd : 1 ≤ delay) :
    adjustConcurrency delay q = plannerSpec delay q
    ∧ 1 ≤ adjustConcurrency delay q
    ∧ adjustConcurrency 1000 "balanced" = 1 := by
  refine ⟨?_, ?_, by decide⟩
  · simp only [adjustConcurrency, plannerSpec, tierCap]
    split_ifs <;> rfl
  · simp only [adjustConcurrency]
    generalize 1000 / delay = x
    split_ifs <;> omega

/-- Witness for `planner_matches_spec` at delay 1000, tier "balanced". -/
theorem planner_matches_spec_witness :
    adjustConcurrency 1000 "balanced" = plannerSpec 1000 "balanced"
    ∧ 1 ≤ adjustConcurrency 1000 "balanced" :=
  ⟨(planner_matches_spec 1000 "balanced" (by norm_num)).1,
   (planner_matches_spec 1000 "balanced" (by norm_num)).2.1⟩

/-- C6: a non-final retryable failure numbered `a` (the just-incremented
attempt counter) waits `backoffDelay a r = 2^a * 100 + r * 100` with
`r ∈ [0,1)`, so the wait lies in `[2^a*100, 2^a*100 + 100)`; the expectation
`expectedBackoff a = 2^a*100 + 50` is the midpoint of that range and is
strictly increasing in the attempt number. -/
theorem backoff_formula_and_monotone :
    (∀ (a : Nat) (r : ℚ), 0 ≤ r → r < 1 →
        2 ^ a * 100 ≤ backoffDelay a r ∧ backoffDelay a r < 2 ^ a * 100 + 100)
    ∧ (∀ a : Nat, expectedBackoff a = (backoffDelay a 0 + backoffDelay a 1) / 2)
    ∧ (∀ a : Nat, expectedBackoff a < expectedBackoff (a + 1)) := by
  refine ⟨fun a r hr0 hr1 => ⟨?_, ?_⟩, fun a => ?_, fun a => ?_⟩
  · unfold backoffDelay
    nlinarith
  · unfold backoffDelay
    nlinarith
  · unfold expectedBackoff backoffDelay
    ring
  · unfold expectedBackoff
    have h2 : (0 : ℚ) < 2 ^ a := by positivity
    rw [pow_succ]
    nlinarith

/-- Witness for `backoff_formula_and_monotone` at attempt 1, draw 1/2. -/
theorem backoff_formula_and_monotone_witness :
    (0 : ℚ) ≤ 1 / 2 ∧ (1 / 2 : ℚ) < 1
    ∧ 2 ^ 1 * 100 ≤ backoffDelay 1 (1 / 2)
    ∧ expectedBackoff 1 < expectedBackoff 2 :=
  ⟨by norm_num, by norm_num,
   (backoff_formula_and_monotone.1 1 (1 / 2) (by norm_num) (by norm_num)).1,
   backoff_formula_and_monotone.2.2 1⟩

/-- C7 counterexample: with the configured delay 200 (within the spec's own
bounds), batch index 11, progress 60/10000 and jitter draw 0.8, the computed
inter-batch wait is 160 ms, strictly below the claimed 200 ms floor: the
jitter multiplication happens after the `max(200, ...)` floor. -/
theorem adaptiveDelay_floor_counterexample :
    adaptiveDelay 200 11 60 10000 true (8 / 10) = 160 ∧ (160 : ℚ) < 200 := by
  constructor
  · unfold adaptiveDelay
    norm_num
  · norm_num

/-- C7 amended: the inter-batch wait equals `delayMs` for batch index at most
10 and `max(200, delayMs * (1 - p*0.3))` with `p = sent/total` beyond that;
when jitter is enabled the result is multiplied by the draw `j ∈ [0.8, 1.2)`
after the floor, so only the pre-jitter value respects the 200 ms floor and
the final wait can drop to `0.8 * 200 = 160` ms but no lower (for batch
index above 10). -/
theorem adaptiveDelay_amended (delayMs : ℚ) (bi sent total : Nat) (j : ℚ) :
    (bi ≤ 10 → adaptiveDelay delayMs bi sent total false j = delayMs)
    ∧ (bi ≤ 10 → adaptiveDelay delayMs bi sent total true j = delayMs * j)
    ∧ (10 < bi →
        adaptiveDelay delayMs bi sent total false j
          = max 200 (delayMs * (1 - ((sent : ℚ) / (total : ℚ)) * 0.3))
        ∧ 200 ≤ adaptiveDelay delayMs bi sent total false j)
    ∧ (10 < bi →
        adaptiveDelay delayMs bi sent total true j
          = max 200 (delayMs * (1 - ((sent : ℚ) / (total : ℚ)) * 0.3)) * j
        ∧ (8 / 10 ≤ j → 160 ≤ adaptiveDelay delayMs bi sent total true j)) := by
  refine ⟨fun h => ?_, fun h => ?_, fun h => ⟨?_, ?_⟩, fun h => ⟨?_, ?_⟩⟩
  · simp [adaptiveDelay, Nat.not_lt.mpr h]
  · simp [adaptiveDelay, Nat.not_lt.mpr h]
  · simp [adaptiveDelay, h]
  · simp only [adaptiveDelay, if_pos h, if_neg (Bool.false_ne_true)]
    exact le_max_left _ _
  · simp [adaptiveDelay, h]
  · intro hj
    simp only [adaptiveDelay, if_pos h, if_pos rfl]
    have hm : (200 : ℚ) ≤ max 200 (delayMs * (1 - ((sent : ℚ) / (total : ℚ)) * 0.3)) :=
      le_max_left _ _
    calc (160 : ℚ) = 200 * (8 / 10) := by norm_num
    _ ≤ max 200 (delayMs * (1 - ((sent : ℚ) / (total : ℚ)) * 0.3)) * j :=
        mul_le_mul hm hj (by norm_num) (le_trans (by norm_num) hm)

/-- Witness for `adaptiveDelay_amended` at delay 500, batch index 12,
progress 50/100, jitter draw 0.9. -/
theorem adaptiveDelay_amended_witness :
    adaptiveDelay 500 3 5 100 false (9 / 10) = 500
    ∧ 200 ≤ adaptiveDelay 500 12 50 100 false (9 / 10)
    ∧ 160 ≤ adaptiveDelay 500 12 50 100 true (9 / 10) :=
  ⟨(adaptiveDelay_amended 500 3 5 100 (9 / 10)).1 (by norm_num),
   ((adaptiveDelay_amended 500 12 50 100 (9 / 10)).2.2.1 (by norm_num)).2,
   ((adaptiveDelay_amended 500 12 50 100 (9 / 10)).2.2.2 (by norm_num)).2 (by norm_num)⟩

/-- Immutable session configuration: the fields the dispatcher core reads
(jitter and referrer settings only affect timing and headers). -/
structure Config where
  impressions : Nat
  delay : Nat
  proxyQuality : String
  maxRetries : Nat
deriving DecidableEq

/-- A request task (`generateRequestQueue`, lines 47-58).  The device
profile, timestamp and status fields are opaque to the dispatcher logic (the
status field is in fact never updated) and are omitted. -/
structure Task where
  id : Nat
  retryCount : Nat
deriving DecidableEq

/-- Session counters (constructor lines 15-23, minus the two wall-clock
timestamps). -/
structure Stats where
  sent : Nat
  successful : Nat
  failed : Nat
  total : Nat
  batchCount : Nat
deriving DecidableEq

/-- Performance tracker state (constructor lines 25-29). -/
structure Performance where
  averageResponseTime : ℚ
  requestsPerSecond : ℚ
  successRate : ℚ
deriving DecidableEq

/-- A per-request AbortController: only its aborted flag is observable. -/
structure Controller where
  aborted : Bool
deriving DecidableEq

/-- The mutable state of a `TrafficSession`. -/
structure SessionState where
  stats : Stats
  retryQueue : List Task
  isRunning : Bool
  performance : Performance
  currentBatch : Option (List Controller)
deriving DecidableEq

/-- Session state at the top of `start()`'s batch loop: fresh counters with
`total = impressions`, empty retry queue, running flag set, tracker seeded
with average 0 and success rate 100. -/
def initialState (impressions : Nat) : SessionState :=
  { stats := { sent := 0, successful := 0, failed := 0, total := impressions,
               batchCount := 0 },
    retryQueue := [],
    isRunning := true,
    performance := { averageResponseTime := 0, requestsPerSecond := 0,
                     successRate := 100 },
    currentBatch := none }

/-- `generateRequestQueue` (lines 47-58): tasks with 1-based ids and zero
retry counters. -/
def generateRequestQueue (impressions : Nat) : List Task :=
  (List.range impressions).map (fun i => { id := i + 1, retryCount := 0 })

/-- `updatePerformanceMetrics` (lines 401-410): exponential moving average of
latency, requests per second over elapsed time, and the guarded success
rate.  The `success` argument is accepted and ignored, as in the source. -/
def updatePerformanceMetrics (stats : Stats) (perf : Performance)
    (duration elapsedSec : ℚ) (success : Bool) : Performance :=
  { averageResponseTime := perf.averageResponseTime * 0.95 + duration * 0.05,
    requestsPerSecond := if 0 < elapsedSec then (stats.sent : ℚ) / elapsedSec else 0,
    successRate := if 0 < stats.sent then
        ((stats.successful : ℚ) / (stats.sent : ℚ)) * 100
      else 100 }

/-- The performance update a terminal attempt performs inside
`executeRequest` (lines 212, 245, 258), with the wall-clock inputs
abstracted (duration 0 ms, elapsed 1 s); it reads the session counters as
they are at that moment, before the batch results are processed. -/
def updatePerf (s : SessionState) (success : Bool) : SessionState :=
  { s with performance := updatePerformanceMetrics s.stats s.performance 0 1 success }

/-- One settled result folded into the session (the forEach body of
`processBatchResults`, lines 284-309): count it as sent, then as successful
or failed; a failed task is admitted to the retry queue only while the queue
holds fewer than 1000 entries and, after its retry counter is incremented,
only if the counter is at most `maxRetries`. -/
def processResult (maxRetries : Nat) (s : SessionState) (r : Task × Bool) :
    SessionState :=
  if r.2 then
    { s with stats := { s.stats with
                        sent := s.stats.sent + 1,
                        successful := s.stats.successful + 1 } }
  else
    let stats1 := { s.stats with
                    sent := s.stats.sent + 1,
                    failed := s.stats.failed + 1 }
    if s.retryQueue.length < 1000 then
      let t : Task := { id := r.1.id, retryCount := r.1.retryCount + 1 }
      if t.retryCount ≤ maxRetries then
        { s with stats := stats1, retryQueue := s.retryQueue ++ [t] }
      else
        { s with stats := stats1 }
    else
      { s with stats := stats1 }

/-- `processBatchResults` (lines 280-333) over the settled results of a
batch (logging dropped). -/
def processBatchResults (maxRetries : Nat) (s : SessionState)
    (results : List (Task × Bool)) : SessionState :=
  results.foldl (processResult maxRetries) s

/-- Fuel-driven chunking loop; the fuel is an upper bound on the number of
chunks, so at `c ≥ 1` the fuel `l.length` is never exhausted. -/
def chunksOfAux {α : Type} (c : Nat) : Nat → List α → List (List α)
  | 0, _ => []
  | _, [] => []
  | fuel + 1, l => l.take c :: chunksOfAux c fuel (l.drop c)

/-- The slicing of `processOptimizedBatches` (lines 105-121): consecutive
chunks of `c` tasks, the last possibly smaller. -/
def chunksOf {α : Type} (c : Nat) (l : List α) : List (List α) :=
  chunksOfAux c l.length l

/-- The performance-tracker side effects of executing one batch: each task's
terminal attempt updates the tracker while the counters are untouched. -/
def runBatchPerf (oracle : Nat → Nat → FetchResult) (maxRetries : Nat)
    (s : SessionState) (batch : List Task) : SessionState :=
  batch.foldl (fun st t => updatePerf st (executeRequest (oracle t.id) maxRetries)) s

/-- The settled results of a batch: each task paired with its resolution. -/
def batchResults (oracle : Nat → Nat → FetchResult) (maxRetries : Nat)
    (batch : List Task) : List (Task × Bool) :=
  batch.map (fun t => (t, executeRequest (oracle t.id) maxRetries))

/-- `processBatch` (lines 123-162) distilled: execute the batch (performance
updates happen first, while the counters are untouched), process the settled
results, then increment the batch counter. -/
def batchStep (oracle : Nat → Nat → FetchResult) (maxRetries : Nat)
    (s : SessionState) (batch : List Task) : SessionState :=
  let s1 := runBatchPerf oracle maxRetries s batch
  let s2 := processBatchResults maxRetries s1 (batchResults oracle maxRetries batch)
  { s2 with stats := { s2.stats with batchCount := s2.stats.batchCount + 1 } }

/-- The batch loop of `processOptimizedBatches` (lines 105-121): each
iteration first checks the running flag (the inter-batch waits are timing
only and are dropped). -/
def runBatches (oracle : Nat → Nat → FetchResult) (maxRetries : Nat)
    (batches : List (List Task)) (s : SessionState) : SessionState :=
  batches.foldl
    (fun st b => if st.isRunning then batchStep oracle maxRetries st b else st) s

/-- The primary pass: partition the request queue by the planned concurrency
and run the batch loop. -/
def primaryPass (oracle : Nat → Nat → FetchResult) (maxRetries concurrency : Nat)
    (queue : List Task) (s : SessionState) : SessionState :=
  runBatches oracle maxRetries (chunksOf concurrency queue) s

/-- One retried task (the map body of `processRetryQueue`, lines 353-357,
with the tallying of lines 361-367): re-execute the task, update the
tracker, and add the outcome to the local retrySuccessful / retryFailed
tallies. -/
def retryTask (oracle : Nat → Nat → FetchResult) (maxRetries : Nat)
    (acc : SessionState × Nat × Nat) (t : Task) : SessionState × Nat × Nat :=
  let ok := executeRequest (oracle t.id) maxRetries
  (updatePerf acc.1 ok,
   if ok then acc.2.1 + 1 else acc.2.1,
   if ok then acc.2.2 else acc.2.2 + 1)

/-- One retry chunk, guarded by the running flag (line 347). -/
def retryChunkStep (oracle : Nat → Nat → FetchResult) (maxRetries : Nat)
    (acc : SessionState × Nat × Nat) (chunk : List Task) : SessionState × Nat × Nat :=
  if acc.1.isRunning then chunk.foldl (retryTask oracle maxRetries) acc else acc

/-- `processRetryQueue` (lines 335-383): half concurrency (minimum 1),
chunked re-execution, and at the end the local tallies are added to
`stats.successful` and `stats.failed` - `stats.sent` is not touched - and
the retry queue is cleared. -/
def processRetryQueue (oracle : Nat → Nat → FetchResult)
    (maxRetries concurrency : Nat) (s : SessionState) : SessionState :=
  if s.retryQueue.isEmpty then s
  else
    let retryConcurrency := max 1 (concurrency / 2)
    let r := (chunksOf retryConcurrency s.retryQueue).foldl
      (retryChunkStep oracle maxRetries) (s, 0, 0)
    { r.1 with
      stats := { r.1.stats with
                 successful := r.1.stats.successful + r.2.1,
                 failed := r.1.stats.failed + r.2.2 },
      retryQueue := [] }

/-- `start()` (lines 80-103) for a session that is never stopped: the
primary pass over the generated queue, the retry pass if the retry queue is
non-empty, then `complete()` clears the running flag. -/
def runSession (oracle : Nat → Nat → FetchResult) (cfg : Config) : SessionState :=
  let concurrency := adjustConcurrency cfg.delay cfg.proxyQuality
  let s0 := initialState cfg.impressions
  let s1 := primaryPass oracle cfg.maxRetries concurrency
    (generateRequestQueue cfg.impressions) s0
  let s2 := if s1.retryQueue.isEmpty then s1
    else processRetryQueue oracle cfg.maxRetries concurrency s1
  { s2 with isRunning := false }

/-- Abort every controller of a batch (line 457). -/
def abortAll (cs : List Controller) : List Controller :=
  cs.map (fun c => { c with aborted := true })

/-- `stop()` (lines 453-462): clear the running flag and, if a batch is in
flight, abort all its controllers and drop the reference.  The returned
list carries the abort calls actually issued by this invocation. -/
def stop (s : SessionState) : SessionState × List Controller :=
  match s.currentBatch with
  | some cs => ({ s with isRunning := false, currentBatch := none }, abortAll cs)
  | none => ({ s with isRunning := false }, [])

/-- `getStats()` (lines 498-503): counters merged with the tracker
snapshot. -/
def getStats (s : SessionState) : Stats × Performance :=
  (s.stats, s.performance)

/-- JavaScript division restricted to finite values: `none` models the
non-finite results, NaN for `0 / 0` and a signed infinity otherwise. -/
def jsDiv (a b : ℚ) : Option ℚ :=
  if b = 0 then none else some (a / b)

/-- The summary success rate computed by `complete()` (line 473):
`successful / sent * 100`, with no guard on `sent = 0`. -/
def completeSuccessRate (stats : Stats) : Option ℚ :=
  (jsDiv (stats.successful : ℚ) (stats.sent : ℚ)).map (fun x => x * 100)

/-- The summary average rate computed by `complete()` (line 474):
`sent / sessionDuration`. -/
def completeAverageRate (stats : Stats) (sessionDuration : ℚ) : Option ℚ :=
  jsDiv (stats.sent : ℚ) sessionDuration

/-- An oracle under which every fetch attempt yields HTTP 500. -/
def all500 : Nat → Nat → FetchResult := fun _ _ => .http 500

/-- An oracle under which every fetch attempt yields HTTP 404. -/
def all404 : Nat → Nat → FetchResult := fun _ _ => .http 404

/-- An oracle under which every fetch attempt fails at the transport level. -/
def allNetErr : Nat → Nat → FetchResult := fun _ _ => .transportError

theorem adjustConcurrency_pos (d : Nat) (q : String) :
    1 ≤ adjustConcurrency d q := by
  simp only [adjustConcurrency]
  generalize 1000 / d = x
  split_ifs <;> omega

theorem chunksOfAux_join {α : Type} (c : Nat) (hc : c ≠ 0) :
    ∀ (fuel : Nat) (l : List α), l.length ≤ fuel →
      (chunksOfAux c fuel l).flatten = l := by
  intro fuel
  induction fuel with
  | zero =>
      intro l hl
      have hnil : l = [] := List.eq_nil_of_length_eq_zero (Nat.le_zero.mp hl)
      subst hnil
      rfl
  | succ n ih =>
      intro l hl
      cases l with
      | nil => rfl
      | cons x xs =>
          show ((x :: xs).take c :: chunksOfAux c n ((x :: xs).drop c)).flatten = x :: xs
          rw [List.flatten_cons, ih ((x :: xs).drop c) ?hlen, List.take_append_drop]
          case hlen =>
            rw [List.length_drop]
            simp only [List.length_cons] at hl ⊢
            omega

theorem chunksOf_join {α : Type} (c : Nat) (hc : c ≠ 0) (l : List α) :
    (chunksOf c l).flatten = l :=
  chunksOfAux_join c hc l.length l (Nat.le_refl _)

theorem chunksOf_sum_length {α : Type} (c : Nat) (hc : c ≠ 0) (l : List α) :
    ((chunksOf c l).map List.length).sum = l.length := by
  rw [← List.length_flatten, chunksOf_join c hc l]

theorem mem_of_mem_chunksOf {α : Type} {c : Nat} (hc : c ≠ 0) {l b : List α}
    {x : α} (hb : b ∈ chunksOf c l) (hx : x ∈ b) : x ∈ l := by
  rw [← chunksOf_join c hc l]
  exact List.mem_flatten.mpr ⟨b, hb, hx⟩

theorem updatePerf_frame (s : SessionState) (b : Bool) :
    (updatePerf s b).stats = s.stats
    ∧ (updatePerf s b).retryQueue = s.retryQueue
    ∧ (updatePerf s b).isRunning = s.isRunning :=
  ⟨rfl, rfl, rfl⟩

theorem runBatchPerf_cons (oracle : Nat → Nat → FetchResult) (m : Nat)
    (t : Task) (ts : List Task) (s : SessionState) :
    runBatchPerf oracle m s (t :: ts)
      = runBatchPerf oracle m (updatePerf s (executeRequest (oracle t.id) m)) ts := rfl

theorem runBatchPerf_frame (oracle : Nat → Nat → FetchResult) (m : Nat) :
    ∀ (batch : List Task) (s : SessionState),
      (runBatchPerf oracle m s batch).stats = s.stats
      ∧ (runBatchPerf oracle m s batch).retryQueue = s.retryQueue
      ∧ (runBatchPerf oracle m s batch).isRunning = s.isRunning := by
  intro batch
  induction batch with
  | nil => intro s; exact ⟨rfl, rfl, rfl⟩
  | cons t ts ih =>
      intro s
      rw [runBatchPerf_cons]
      exact ih (updatePerf s (executeRequest (oracle t.id) m))

theorem processResult_sent (m : Nat) (s : SessionState) (r : Task × Bool) :
    (processResult m s r).stats.sent = s.stats.sent + 1 := by
  simp only [processResult]
  split_ifs <;> rfl

theorem processResult_sum (m : Nat) (s : SessionState) (r : Task × Bool) :
    (processResult m s r).stats.successful + (processResult m s r).stats.failed
      = s.stats.successful + s.stats.failed + 1 := by
  simp only [processResult]
  split_ifs <;> simp <;> omega

theorem processResult_frame (m : Nat) (s : SessionState) (r : Task × Bool) :
    (processResult m s r).stats.total = s.stats.total
    ∧ (processResult m s r).stats.batchCount = s.stats.batchCount
    ∧ (processResult m s r).isRunning = s.isRunning
    ∧ (processResult m s r).performance = s.performance := by
  simp only [processResult]
  split_ifs <;> exact ⟨rfl, rfl, rfl, rfl⟩

theorem processResult_fail_queue (m : Nat) (s : SessionState) (t : Task) :
    (processResult m s (t, false)).retryQueue
      = if s.retryQueue.length < 1000 ∧ t.retryCount + 1 ≤ m
        then s.retryQueue ++ [{ id := t.id, retryCount := t.retryCount + 1 }]
        else s.retryQueue := by
  simp only [processResult]
  split_ifs <;> simp_all

theorem processResult_queueBound {m : Nat} {s : SessionState} {r : Task × Bool}
    (h : ∀ u ∈ s.retryQueue, u.retryCount ≤ m) :
    ∀ u ∈ (processResult m s r).retryQueue, u.retryCount ≤ m := by
  simp only [processResult]
  split_ifs with h1 h2 h3
  · exact h
  · intro u hu
    rcases List.mem_append.mp hu with hu1 | hu2
    · exact h u hu1
    · rw [List.mem_singleton.mp hu2]
      exact h3
  · exact h
  · exact h

theorem processResult_true (m : Nat) (s : SessionState) (r : Task × Bool)
    (hr : r.2 = true) :
    processResult m s r
      = { s with stats := { s.stats with
                            sent := s.stats.sent + 1,
                            successful := s.stats.successful + 1 } } := by
  simp only [processResult]
  rw [if_pos hr]

theorem processResult_false_enq (m : Nat) (s : SessionState) (t : Task)
    (hq : s.retryQueue.length < 1000) (hrc : t.retryCount + 1 ≤ m) :
    processResult m s (t, false)
      = { s with
          stats := { s.stats with
                     sent := s.stats.sent + 1,
                     failed := s.stats.failed + 1 },
          retryQueue := s.retryQueue
            ++ [{ id := t.id, retryCount := t.retryCount + 1 }] } := by
  simp only [processResult]
  rw [if_neg (by simp), if_pos hq, if_pos hrc]

theorem processBatchResults_cons (m : Nat) (s : SessionState)
    (r : Task × Bool) (rs : List (Task × Bool)) :
    processBatchResults m s (r :: rs)
      = processBatchResults m (processResult m s r) rs := rfl

theorem processBatchResults_sent (m : Nat) :
    ∀ (rs : List (Task × Bool)) (s : SessionState),
      (processBatchResults m s rs).stats.sent = s.stats.sent + rs.length := by
  intro rs
  induction rs with
  | nil => intro s; rfl
  | cons r rs ih =>
      intro s
      rw [processBatchResults_cons, ih, processResult_sent]
      simp only [List.length_cons]
      omega

theorem processBatchResults_sum (m : Nat) :
    ∀ (rs : List (Task × Bool)) (s : SessionState),
      (processBatchResults m s rs).stats.successful
          + (processBatchResults m s rs).stats.failed
        = s.stats.successful + s.stats.failed + rs.length := by
  intro rs
  induction rs with
  | nil => intro s; rfl
  | cons r rs ih =>
      intro s
      rw [processBatchResults_cons, ih, processResult_sum]
      simp only [List.length_cons]
      omega

theorem processBatchResults_frame (m : Nat) :
    ∀ (rs : List (Task × Bool)) (s : SessionState),
      (processBatchResults m s rs).stats.total = s.stats.total
      ∧ (processBatchResults m s rs).isRunning = s.isRunning
      ∧ (processBatchResults m s rs).performance = s.performance := by
  intro rs
  induction rs with
  | nil => intro s; exact ⟨rfl, rfl, rfl⟩
  | cons r rs ih =>
      intro s
      rw [processBatchResults_cons]
      obtain ⟨h1, h2, h3⟩ := ih (processResult m s r)
      obtain ⟨g1, g2, g3, g4⟩ := processResult_frame m s r
      exact ⟨h1.trans g1, h2.trans g3, h3.trans g4⟩

theorem processBatchResults_queueBound {m : Nat} :
    ∀ {rs : List (Task × Bool)} {s : SessionState},
      (∀ u ∈ s.retryQueue, u.retryCount ≤ m) →
      ∀ u ∈ (processBatchResults m s rs).retryQueue, u.retryCount ≤ m := by
  intro rs
  induction rs with
  | nil => intro s h; exact h
  | cons r rs ih =>
      intro s h
      rw [processBatchResults_cons]
      exact ih (processResult_queueBound h)

theorem batchStep_sent (oracle : Nat → Nat → FetchResult) (m : Nat)
    (s : SessionState) (batch : List Task) :
    (batchStep oracle m s batch).stats.sent = s.stats.sent + batch.length := by
  show (processBatchResults m (runBatchPerf oracle m s batch)
      (batchResults oracle m batch)).stats.sent = s.stats.sent + batch.length
  rw [processBatchResults_sent, (runBatchPerf_frame oracle m batch s).1]
  simp [batchResults]

theorem batchStep_sum (oracle : Nat → Nat → FetchResult) (m : Nat)
    (s : SessionState) (batch : List Task) :
    (batchStep oracle m s batch).stats.successful
        + (batchStep oracle m s batch).stats.failed
      = s.stats.successful + s.stats.failed + batch.length := by
  show (processBatchResults m (runBatchPerf oracle m s batch)
          (batchResults oracle m batch)).stats.successful
        + (processBatchResults m (runBatchPerf oracle m s batch)
          (batchResults oracle m batch)).stats.failed
      = s.stats.successful + s.stats.failed + batch.length
  rw [processBatchResults_sum, (runBatchPerf_frame oracle m batch s).1]
  simp [batchResults]

theorem batchStep_frame (oracle : Nat → Nat → FetchResult) (m : Nat)
    (s : SessionState) (batch : List Task) :
    (batchStep oracle m s batch).stats.total = s.stats.total
    ∧ (batchStep oracle m s batch).isRunning = s.isRunning := by
  obtain ⟨h1, h2, h3⟩ := processBatchResults_frame m (batchResults oracle m batch)
    (runBatchPerf oracle m s batch)
  obtain ⟨g1, g2, g3⟩ := runBatchPerf_frame oracle m batch s
  constructor
  · show (processBatchResults m (runBatchPerf oracle m s batch)
        (batchResults oracle m batch)).stats.total = s.stats.total
    rw [h1, g1]
  · show (processBatchResults m (runBatchPerf oracle m s batch)
        (batchResults oracle m batch)).isRunning = s.isRunning
    rw [h2, g3]

theorem batchStep_queueBound {oracle : Nat → Nat → FetchResult} {m : Nat}
    {s : SessionState} {batch : List Task}
    (h : ∀ u ∈ s.retryQueue, u.retryCount ≤ m) :
    ∀ u ∈ (batchStep oracle m s batch).retryQueue, u.retryCount ≤ m := by
  show ∀ u ∈ (processBatchResults m (runBatchPerf oracle m s batch)
      (batchResults oracle m batch)).retryQueue, u.retryCount ≤ m
  apply processBatchResults_queueBound
  rw [(runBatchPerf_frame oracle m batch s).2.1]
  exact h

theorem runBatches_cons (oracle : Nat → Nat → FetchResult) (m : Nat)
    (b : List Task) (bs : List (List Task)) (s : SessionState) :
    runBatches oracle m (b :: bs) s
      = runBatches oracle m bs
          (if s.isRunning then batchStep oracle m s b else s) := rfl

theorem runBatches_notRunning (oracle : Nat → Nat → FetchResult) (m : Nat) :
    ∀ (bs : List (List Task)) (s : SessionState),
      s.isRunning = false → runBatches oracle m bs s = s := by
  intro bs
  induction bs with
  | nil => intro s _; rfl
  | cons b bs ih =>
      intro s h
      rw [runBatches_cons, if_neg (by simp [h])]
      exact ih s h

theorem runBatches_queueBound (oracle : Nat → Nat → FetchResult) (m : Nat) :
    ∀ (bs : List (List Task)) (s : SessionState),
      (∀ u ∈ s.retryQueue, u.retryCount ≤ m) →
      ∀ u ∈ (runBatches oracle m bs s).retryQueue, u.retryCount ≤ m := by
  intro bs
  induction bs with
  | nil => intro s h; exact h
  | cons b bs ih =>
      intro s h
      rw [runBatches_cons]
      by_cases hr : s.isRunning = true
      · rw [if_pos hr]
        exact ih _ (batchStep_queueBound h)
      · rw [if_neg hr]
        exact ih _ h

theorem executeRequest_first_success {oracle : Nat → FetchResult}
    (h : attemptSucceeds (oracle 0) = true) {m : Nat} (hm : 1 ≤ m) :
    executeRequest oracle m = true := by
  obtain ⟨k, rfl⟩ : ∃ k, m = k + 1 := ⟨m - 1, by omega⟩
  show executeAttempts oracle 0 (k + 1) = true
  simp [executeAttempts, h]

theorem executeAttempts_allFail {oracle : Nat → FetchResult}
    (h : ∀ a, attemptSucceeds (oracle a) = false) :
    ∀ (k attempt : Nat), executeAttempts oracle attempt k = false := by
  intro k
  induction k with
  | zero => intro a; rfl
  | succ n ih =>
      intro a
      show executeAttempts oracle a (n + 1) = false
      simpa [executeAttempts, h a] using ih (a + 1)

theorem executeRequest_allFail {oracle : Nat → FetchResult}
    (h : ∀ a, attemptSucceeds (oracle a) = false) (m : Nat) :
    executeRequest oracle m = false :=
  executeAttempts_allFail h m 0

theorem processBatchResults_allSucc (m : Nat) :
    ∀ (rs : List (Task × Bool)) (s : SessionState), (∀ r ∈ rs, r.2 = true) →
      (processBatchResults m s rs).stats.successful
          = s.stats.successful + rs.length
      ∧ (processBatchResults m s rs).stats.failed = s.stats.failed
      ∧ (processBatchResults m s rs).retryQueue = s.retryQueue := by
  intro rs
  induction rs with
  | nil => intro s _; exact ⟨rfl, rfl, rfl⟩
  | cons r rs ih =>
      intro s h
      rw [processBatchResults_cons,
        processResult_true m s r (h r (List.mem_cons_self r rs))]
      obtain ⟨h1, h2, h3⟩ := ih _ (fun x hx => h x (List.mem_cons_of_mem r hx))
      refine ⟨?_, h2, h3⟩
      rw [h1]
      simp only [List.length_cons]
      omega

theorem batchResults_allSucc {oracle : Nat → Nat → FetchResult} {m : Nat}
    {batch : List Task}
    (h : ∀ t ∈ batch, executeRequest (oracle t.id) m = true) :
    ∀ r ∈ batchResults oracle m batch, r.2 = true := by
  intro r hr
  obtain ⟨t, ht, rfl⟩ := List.mem_map.mp hr
  exact h t ht

theorem batchStep_allSucc (oracle : Nat → Nat → FetchResult) (m : Nat)
    (s : SessionState) (batch : List Task)
    (h : ∀ t ∈ batch, executeRequest (oracle t.id) m = true) :
    (batchStep oracle m s batch).stats.successful
        = s.stats.successful + batch.length
    ∧ (batchStep oracle m s batch).stats.failed = s.stats.failed
    ∧ (batchStep oracle m s batch).retryQueue = s.retryQueue := by
  obtain ⟨g1, g2, g3⟩ := runBatchPerf_frame oracle m batch s
  obtain ⟨h1, h2, h3⟩ := processBatchResults_allSucc m (batchResults oracle m batch)
    (runBatchPerf oracle m s batch) (batchResults_allSucc h)
  refine ⟨?_, ?_, ?_⟩
  · show (processBatchResults m (runBatchPerf oracle m s batch)
        (batchResults oracle m batch)).stats.successful
      = s.stats.successful + batch.length
    rw [h1, g1]
    simp [batchResults]
  · show (processBatchResults m (runBatchPerf oracle m s batch)
        (batchResults oracle m batch)).stats.failed = s.stats.failed
    rw [h2, g1]
  · show (processBatchResults m (runBatchPerf oracle m s batch)
        (batchResults oracle m batch)).retryQueue = s.retryQueue
    rw [h3, g2]

theorem runBatches_allSucc (oracle : Nat → Nat → FetchResult) (m : Nat) :
    ∀ (bs : List (List Task)) (s : SessionState), s.isRunning = true →
      (∀ b ∈ bs, ∀ t ∈ b, executeRequest (oracle t.id) m = true) →
      (runBatches oracle m bs s).stats.successful
          = s.stats.successful + (bs.map List.length).sum
      ∧ (runBatches oracle m bs s).stats.sent
          = s.stats.sent + (bs.map List.length).sum
      ∧ (runBatches oracle m bs s).stats.failed = s.stats.failed
      ∧ (runBatches oracle m bs s).retryQueue = s.retryQueue
      ∧ (runBatches oracle m bs s).stats.total = s.stats.total
      ∧ (runBatches oracle m bs s).isRunning = true := by
  intro bs
  induction bs with
  | nil => intro s hr _; exact ⟨rfl, rfl, rfl, rfl, rfl, hr⟩
  | cons b bs ih =>
      intro s hr h
      rw [runBatches_cons, if_pos hr]
      obtain ⟨f1, f2⟩ := batchStep_frame oracle m s b
      obtain ⟨a1, a2, a3⟩ := batchStep_allSucc oracle m s b
        (h b (List.mem_cons_self b bs))
      obtain ⟨i1, i2, i3, i4, i5, i6⟩ := ih (batchStep oracle m s b)
        (f2.trans hr) (fun x hx => h x (List.mem_cons_of_mem b hx))
      refine ⟨?_, ?_, ?_, ?_, ?_, i6⟩
      · rw [i1, a1]
        simp only [List.map_cons, List.sum_cons]
        omega
      · rw [i2, batchStep_sent]
        simp only [List.map_cons, List.sum_cons]
        omega
      · rw [i3, a2]
      · rw [i4, a3]
      · rw [i5, f1]

theorem processBatchResults_allFail (m : Nat) (hm : 1 ≤ m) :
    ∀ (rs : List (Task × Bool)) (s : SessionState),
      (∀ r ∈ rs, r.2 = false ∧ r.1.retryCount = 0) →
      s.retryQueue.length + rs.length ≤ 1000 →
      (processBatchResults m s rs).stats.sent = s.stats.sent + rs.length
      ∧ (processBatchResults m s rs).stats.failed = s.stats.failed + rs.length
      ∧ (processBatchResults m s rs).stats.successful = s.stats.successful
      ∧ (processBatchResults m s rs).retryQueue
          = s.retryQueue ++ rs.map (fun r => { id := r.1.id, retryCount := 1 }) := by
  intro rs
  induction rs with
  | nil => intro s _ _; simp [processBatchResults]
  | cons r rs ih =>
      intro s h hcap
      obtain ⟨hfalse, hrc⟩ := h r (List.mem_cons_self r rs)
      obtain ⟨t, flag⟩ := r
      simp only at hfalse hrc
      subst hfalse
      have hq : s.retryQueue.length < 1000 := by
        simp only [List.length_cons] at hcap
        omega
      have henq := processResult_false_enq m s t hq (by omega)
      rw [processBatchResults_cons, henq]
      obtain ⟨i1, i2, i3, i4⟩ := ih
        ({ s with
           stats := { s.stats with
                      sent := s.stats.sent + 1,
                      failed := s.stats.failed + 1 },
           retryQueue := s.retryQueue
             ++ [{ id := t.id, retryCount := t.retryCount + 1 }] })
        (fun x hx => h x (List.mem_cons_of_mem _ hx))
        (by simp only [List.length_append, List.length_singleton,
              List.length_cons, List.length_nil] at hcap ⊢; omega)
      refine ⟨?_, ?_, ?_, ?_⟩
      · rw [i1]
        simp only [List.length_cons]
        omega
      · rw [i2]
        simp only [List.length_cons]
        omega
      · rw [i3]
      · rw [i4, hrc]
        simp [List.append_assoc]

theorem batchResults_allFail {oracle : Nat → Nat → FetchResult} {m : Nat}
    {batch : List Task}
    (hf : ∀ t ∈ batch, executeRequest (oracle t.id) m = false)
    (h0 : ∀ t ∈ batch, t.retryCount = 0) :
    ∀ r ∈ batchResults oracle m batch, r.2 = false ∧ r.1.retryCount = 0 := by
  intro r hr
  obtain ⟨t, ht, rfl⟩ := List.mem_map.mp hr
  exact ⟨hf t ht, h0 t ht⟩

theorem batchStep_allFail (oracle : Nat → Nat → FetchResult) (m : Nat)
    (hm : 1 ≤ m) (s : SessionState) (batch : List Task)
    (hf : ∀ t ∈ batch, executeRequest (oracle t.id) m = false)
    (h0 : ∀ t ∈ batch, t.retryCount = 0)
    (hcap : s.retryQueue.length + batch.length ≤ 1000) :
    (batchStep oracle m s batch).stats.sent = s.stats.sent + batch.length
    ∧ (batchStep oracle m s batch).stats.failed = s.stats.failed + batch.length
    ∧ (batchStep oracle m s batch).stats.successful = s.stats.successful
    ∧ (batchStep oracle m s batch).retryQueue
        = s.retryQueue ++ batch.map (fun t => { id := t.id, retryCount := 1 }) := by
  obtain ⟨g1, g2, g3⟩ := runBatchPerf_frame oracle m batch s
  obtain ⟨i1, i2, i3, i4⟩ := processBatchResults_allFail m hm
    (batchResults oracle m batch) (runBatchPerf oracle m s batch)
    (batchResults_allFail hf h0)
    (by rw [g2]; simpa [batchResults] using hcap)
  refine ⟨?_, ?_, ?_, ?_⟩
  · show (processBatchResults m (runBatchPerf oracle m s batch)
        (batchResults oracle m batch)).stats.sent = s.stats.sent + batch.length
    rw [i1, g1]
    simp [batchResults]
  · show (processBatchResults m (runBatchPerf oracle m s batch)
        (batchResults oracle m batch)).stats.failed = s.stats.failed + batch.length
    rw [i2, g1]
    simp [batchResults]
  · show (processBatchResults m (runBatchPerf oracle m s batch)
        (batchResults oracle m batch)).stats.successful = s.stats.successful
    rw [i3, g1]
  · show (processBatchResults m (runBatchPerf oracle m s batch)
        (batchResults oracle m batch)).retryQueue
      = s.retryQueue ++ batch.map (fun t => { id := t.id, retryCount := 1 })
    rw [i4, g2]
    simp [batchResults, List.map_map]

theorem runBatches_allFail (oracle : Nat → Nat → FetchResult) (m : Nat)
    (hm : 1 ≤ m) :
    ∀ (bs : List (List Task)) (s : SessionState), s.isRunning = true →
      (∀ b ∈ bs, ∀ t ∈ b, executeRequest (oracle t.id) m = false) →
      (∀ b ∈ bs, ∀ t ∈ b, t.retryCount = 0) →
      s.retryQueue.length + (bs.map List.length).sum ≤ 1000 →
      (runBatches oracle m bs s).stats.sent
          = s.stats.sent + (bs.map List.length).sum
      ∧ (runBatches oracle m bs s).stats.failed
          = s.stats.failed + (bs.map List.length).sum
      ∧ (runBatches oracle m bs s).stats.successful = s.stats.successful
      ∧ (runBatches oracle m bs s).retryQueue
          = s.retryQueue ++ bs.flatten.map (fun t => { id := t.id, retryCount := 1 })
      ∧ (runBatches oracle m bs s).stats.total = s.stats.total
      ∧ (runBatches oracle m bs s).isRunning = true := by
  intro bs
  induction bs with
  | nil => intro s hr _ _ _; exact ⟨rfl, rfl, rfl, by simp [runBatches], rfl, hr⟩
  | cons b bs ih =>
      intro s hr hf h0 hcap
      rw [runBatches_cons, if_pos hr]
      simp only [List.map_cons, List.sum_cons] at hcap
      obtain ⟨f1, f2⟩ := batchStep_frame oracle m s b
      obtain ⟨a1, a2, a3, a4⟩ := batchStep_allFail oracle m hm s b
        (hf b (List.mem_cons_self b bs)) (h0 b (List.mem_cons_self b bs))
        (by omega)
      obtain ⟨i1, i2, i3, i4, i5, i6⟩ := ih (batchStep oracle m s b)
        (f2.trans hr)
        (fun x hx => hf x (List.mem_cons_of_mem b hx))
        (fun x hx => h0 x (List.mem_cons_of_mem b hx))
        (by rw [a4]; simp only [List.length_append, List.length_map]; omega)
      refine ⟨?_, ?_, ?_, ?_, ?_, i6⟩
      · rw [i1, batchStep_sent]
        simp only [List.map_cons, List.sum_cons]
        omega
      · rw [i2, a2]
        simp only [List.map_cons, List.sum_cons]
        omega
      · rw [i3, a3]
      · rw [i4, a4]
        simp [List.append_assoc]
      · rw [i5, f1]

theorem retryTask_frame (oracle : Nat → Nat → FetchResult) (m : Nat)
    (acc : SessionState × Nat × Nat) (t : Task) :
    (retryTask oracle m acc t).1.stats = acc.1.stats
    ∧ (retryTask oracle m acc t).1.isRunning = acc.1.isRunning :=
  ⟨rfl, rfl⟩

theorem retryChunk_frame (oracle : Nat → Nat → FetchResult) (m : Nat) :
    ∀ (chunk : List Task) (acc : SessionState × Nat × Nat),
      (chunk.foldl (retryTask oracle m) acc).1.stats = acc.1.stats
      ∧ (chunk.foldl (retryTask oracle m) acc).1.isRunning = acc.1.isRunning := by
  intro chunk
  induction chunk with
  | nil => intro acc; exact ⟨rfl, rfl⟩
  | cons t ts ih =>
      intro acc
      rw [List.foldl_cons]
      obtain ⟨h1, h2⟩ := ih (retryTask oracle m acc t)
      exact ⟨h1.trans (retryTask_frame oracle m acc t).1,
             h2.trans (retryTask_frame oracle m acc t).2⟩

theorem retryFold_frame (oracle : Nat → Nat → FetchResult) (m : Nat) :
    ∀ (L : List (List Task)) (acc : SessionState × Nat × Nat),
      (L.foldl (retryChunkStep oracle m) acc).1.stats = acc.1.stats
      ∧ (L.foldl (retryChunkStep oracle m) acc).1.isRunning = acc.1.isRunning := by
  intro L
  induction L with
  | nil => intro acc; exact ⟨rfl, rfl⟩
  | cons b L ih =>
      intro acc
      rw [List.foldl_cons]
      obtain ⟨h1, h2⟩ := ih (retryChunkStep oracle m acc b)
      have hstep : (retryChunkStep oracle m acc b).1.stats = acc.1.stats
          ∧ (retryChunkStep oracle m acc b).1.isRunning = acc.1.isRunning := by
        unfold retryChunkStep
        split
        · exact retryChunk_frame oracle m b acc
        · exact ⟨rfl, rfl⟩
      exact ⟨h1.trans hstep.1, h2.trans hstep.2⟩

theorem retryFold_notRunning (oracle : Nat → Nat → FetchResult) (m : Nat) :
    ∀ (L : List (List Task)) (acc : SessionState × Nat × Nat),
      acc.1.isRunning = false →
      L.foldl (retryChunkStep oracle m) acc = acc := by
  intro L
  induction L with
  | nil => intro acc _; rfl
  | cons b L ih =>
      intro acc h
      rw [List.foldl_cons]
      have hstep : retryChunkStep oracle m acc b = acc := by
        unfold retryChunkStep
        rw [if_neg (by simp [h])]
      rw [hstep]
      exact ih acc h

theorem retryTask_fail (oracle : Nat → Nat → FetchResult) (m : Nat)
    (acc : SessionState × Nat × Nat) (t : Task)
    (hf : executeRequest (oracle t.id) m = false) :
    retryTask oracle m acc t = (updatePerf acc.1 false, acc.2.1, acc.2.2 + 1) := by
  simp [retryTask, hf]

theorem retryChunk_allFail (oracle : Nat → Nat → FetchResult) (m : Nat)
    (hf : ∀ id, executeRequest (oracle id) m = false) :
    ∀ (chunk : List Task) (acc : SessionState × Nat × Nat),
      (chunk.foldl (retryTask oracle m) acc).2.1 = acc.2.1
      ∧ (chunk.foldl (retryTask oracle m) acc).2.2 = acc.2.2 + chunk.length := by
  intro chunk
  induction chunk with
  | nil => intro acc; exact ⟨rfl, rfl⟩
  | cons t ts ih =>
      intro acc
      rw [List.foldl_cons, retryTask_fail oracle m acc t (hf t.id)]
      obtain ⟨h1, h2⟩ := ih (updatePerf acc.1 false, acc.2.1, acc.2.2 + 1)
      refine ⟨h1, ?_⟩
      rw [h2]
      simp only [List.length_cons]
      omega

theorem retryFold_allFail (oracle : Nat → Nat → FetchResult) (m : Nat)
    (hf : ∀ id, executeRequest (oracle id) m = false) :
    ∀ (L : List (List Task)) (acc : SessionState × Nat × Nat),
      acc.1.isRunning = true →
      (L.foldl (retryChunkStep oracle m) acc).2.1 = acc.2.1
      ∧ (L.foldl (retryChunkStep oracle m) acc).2.2
          = acc.2.2 + (L.map List.length).sum := by
  intro L
  induction L with
  | nil => intro acc _; exact ⟨rfl, by simp⟩
  | cons b L ih =>
      intro acc hrun
      rw [List.foldl_cons]
      have hstep : retryChunkStep oracle m acc b = b.foldl (retryTask oracle m) acc := by
        unfold retryChunkStep
        rw [if_pos hrun]
      rw [hstep]
      obtain ⟨c1, c2⟩ := retryChunk_allFail oracle m hf b acc
      obtain ⟨i1, i2⟩ := ih (b.foldl (retryTask oracle m) acc)
        ((retryChunk_frame oracle m b acc).2.trans hrun)
      refine ⟨i1.trans c1, ?_⟩
      rw [i2, c2]
      simp only [List.map_cons, List.sum_cons]
      omega

theorem processRetryQueue_statsFrame (oracle : Nat → Nat → FetchResult)
    (m c : Nat) (s : SessionState) :
    (processRetryQueue oracle m c s).stats.sent = s.stats.sent
    ∧ (processRetryQueue oracle m c s).stats.total = s.stats.total := by
  unfold processRetryQueue
  split
  · exact ⟨rfl, rfl⟩
  · constructor
    · show ((chunksOf (max 1 (c / 2)) s.retryQueue).foldl
          (retryChunkStep oracle m) (s, 0, 0)).1.stats.sent = s.stats.sent
      rw [(retryFold_frame oracle m _ _).1]
    · show ((chunksOf (max 1 (c / 2)) s.retryQueue).foldl
          (retryChunkStep oracle m) (s, 0, 0)).1.stats.total = s.stats.total
      rw [(retryFold_frame oracle m _ _).1]

theorem processRetryQueue_notRunning (oracle : Nat → Nat → FetchResult)
    (m c : Nat) (s : SessionState) (h : s.isRunning = false) :
    (processRetryQueue oracle m c s).stats = s.stats := by
  unfold processRetryQueue
  split
  · rfl
  · simp only [retryFold_notRunning oracle m (chunksOf (max 1 (c / 2)) s.retryQueue)
      (s, 0, 0) h]
    rfl

theorem processRetryQueue_allFail (oracle : Nat → Nat → FetchResult)
    (m c : Nat) (s : SessionState) (hrun : s.isRunning = true)
    (hf : ∀ id, executeRequest (oracle id) m = false) :
    (processRetryQueue oracle m c s).stats.failed
        = s.stats.failed + s.retryQueue.length
    ∧ (processRetryQueue oracle m c s).stats.successful = s.stats.successful
    ∧ (processRetryQueue oracle m c s).stats.sent = s.stats.sent := by
  have hsent := (processRetryQueue_statsFrame oracle m c s).1
  unfold processRetryQueue
  split
  · next hemp =>
      have hnil : s.retryQueue = [] := by
        cases hq : s.retryQueue with
        | nil => rfl
        | cons x xs => rw [hq] at hemp; simp [List.isEmpty] at hemp
      rw [hnil]
      exact ⟨rfl, rfl, rfl⟩
  · next hemp =>
      have hcpos : max 1 (c / 2) ≠ 0 := by omega
      obtain ⟨c1, c2⟩ := retryFold_allFail oracle m hf
        (chunksOf (max 1 (c / 2)) s.retryQueue) (s, 0, 0) hrun
      have hframe := (retryFold_frame oracle m
        (chunksOf (max 1 (c / 2)) s.retryQueue) (s, 0, 0)).1
      have hsum : ((chunksOf (max 1 (c / 2)) s.retryQueue).map List.length).sum
          = s.retryQueue.length := chunksOf_sum_length _ hcpos _
      refine ⟨?_, ?_, ?_⟩
      · show ((chunksOf (max 1 (c / 2)) s.retryQueue).foldl
            (retryChunkStep oracle m) (s, 0, 0)).1.stats.failed
          + ((chunksOf (max 1 (c / 2)) s.retryQueue).foldl
            (retryChunkStep oracle m) (s, 0, 0)).2.2
          = s.stats.failed + s.retryQueue.length
        rw [hframe, c2, hsum]
        simp
      · show ((chunksOf (max 1 (c / 2)) s.retryQueue).foldl
            (retryChunkStep oracle m) (s, 0, 0)).1.stats.successful
          + ((chunksOf (max 1 (c / 2)) s.retryQueue).foldl
            (retryChunkStep oracle m) (s, 0, 0)).2.1
          = s.stats.successful
        rw [hframe, c1]
        simp
      · show ((chunksOf (max 1 (c / 2)) s.retryQueue).foldl
            (retryChunkStep oracle m) (s, 0, 0)).1.stats.sent = s.stats.sent
        rw [hframe]

theorem primaryPass_def (oracle : Nat → Nat → FetchResult) (m c : Nat)
    (q : List Task) (s : SessionState) :
    primaryPass oracle m c q s = runBatches oracle m (chunksOf c q) s := rfl

theorem runSession_stats (oracle : Nat → Nat → FetchResult) (cfg : Config) :
    (runSession oracle cfg).stats
      = (if (primaryPass oracle cfg.maxRetries
              (adjustConcurrency cfg.delay cfg.proxyQuality)
              (generateRequestQueue cfg.impressions)
              (initialState cfg.impressions)).retryQueue.isEmpty
         then primaryPass oracle cfg.maxRetries
              (adjustConcurrency cfg.delay cfg.proxyQuality)
              (generateRequestQueue cfg.impressions)
              (initialState cfg.impressions)
         else processRetryQueue oracle cfg.maxRetries
              (adjustConcurrency cfg.delay cfg.proxyQuality)
              (primaryPass oracle cfg.maxRetries
                (adjustConcurrency cfg.delay cfg.proxyQuality)
                (generateRequestQueue cfg.impressions)
                (initialState cfg.impressions))).stats := rfl

theorem generateRequestQueue_length (n : Nat) :
    (generateRequestQueue n).length = n := by
  simp [generateRequestQueue]

theorem generateRequestQueue_retryCount {n : Nat} :
    ∀ t ∈ generateRequestQueue n, t.retryCount = 0 := by
  intro t ht
  simp only [generateRequestQueue, List.mem_map] at ht
  obtain ⟨i, _, heq⟩ := ht
  rw [← heq]

/-- C1 counterexample: a one-impression session whose single request fails at
the transport level with `maxRetries = 1` ends, after the retry-queue pass,
with `sent = 1` but `successful + failed = 0 + 2 = 2`: the retry pass adds
its outcomes to `successful`/`failed` without incrementing `sent`, so the
claimed invariant does not survive session completion. -/
theorem session_sum_counterexample :
    (runSession allNetErr
        { impressions := 1, delay := 1000, proxyQuality := "balanced",
          maxRetries := 1 }).stats.sent = 1
    ∧ (runSession allNetErr
        { impressions := 1, delay := 1000, proxyQuality := "balanced",
          maxRetries := 1 }).stats.successful = 0
    ∧ (runSession allNetErr
        { impressions := 1, delay := 1000, proxyQuality := "balanced",
          maxRetries := 1 }).stats.failed = 2 :=
  ⟨by decide, by decide, by decide⟩

/-- C1 amended: after every batch of the primary pass the counters satisfy
`sent = successful + failed`, and `sent` never decreases at any point of the
session (in particular the retry-queue pass leaves `sent` unchanged); the
equality, however, need not survive the retry-queue pass, since retry
outcomes increment `successful`/`failed` but not `sent` (see the
counterexample). -/
theorem session_sum_amended (oracle : Nat → Nat → FetchResult) (m c : Nat)
    (s : SessionState) (batch : List Task)
    (h : s.stats.sent = s.stats.successful + s.stats.failed) :
    (batchStep oracle m s batch).stats.sent
        = (batchStep oracle m s batch).stats.successful
          + (batchStep oracle m s batch).stats.failed
    ∧ s.stats.sent ≤ (batchStep oracle m s batch).stats.sent
    ∧ (processRetryQueue oracle m c s).stats.sent = s.stats.sent := by
  refine ⟨?_, ?_, (processRetryQueue_statsFrame oracle m c s).1⟩
  · have h1 := batchStep_sent oracle m s batch
    have h2 := batchStep_sum oracle m s batch
    omega
  · have h1 := batchStep_sent oracle m s batch
    omega

/-- Witness for `session_sum_amended`: one failing batch on a fresh
session. -/
theorem session_sum_amended_witness :
    (batchStep allNetErr 1 (initialState 1) [{ id := 1, retryCount := 0 }]).stats.sent
      = (batchStep allNetErr 1 (initialState 1) [{ id := 1, retryCount := 0 }]).stats.successful
        + (batchStep allNetErr 1 (initialState 1) [{ id := 1, retryCount := 0 }]).stats.failed :=
  (session_sum_amended allNetErr 1 1 (initialState 1)
    [{ id := 1, retryCount := 0 }] rfl).1

/-- C3: per-attempt outcome classification - status 500 and above is a
retryable failure, 403 and 404 return immediately as successful deliveries,
every other 4xx is a retryable failure, transport errors are retryable
failures, 2xx/3xx is a success - and a session in which every request
returns HTTP 404 ends with `successful = total` and `failed = 0`. -/
theorem executor_classification_all404 :
    (∀ s : Nat, 500 ≤ s → attemptSucceeds (.http s) = false)
    ∧ attemptSucceeds (.http 403) = true
    ∧ attemptSucceeds (.http 404) = true
    ∧ (∀ s : Nat, 400 ≤ s → s < 500 → s ≠ 403 → s ≠ 404 →
        attemptSucceeds (.http s) = false)
    ∧ attemptSucceeds .transportError = false
    ∧ (∀ s : Nat, 200 ≤ s → s < 400 → attemptSucceeds (.http s) = true)
    ∧ (∀ cfg : Config, 1 ≤ cfg.maxRetries →
        (runSession all404 cfg).stats.successful = (runSession all404 cfg).stats.total
        ∧ (runSession all404 cfg).stats.failed = 0) := by
  refine ⟨?_, by decide, by decide, ?_, rfl, ?_, ?_⟩
  · intro s hs
    have hok : respOk s = false := by simp [respOk]; omega
    simp [attemptSucceeds, hok, hs]
  · intro s h1 h2 h3 h4
    have hok : respOk s = false := by simp [respOk]; omega
    have h5 : ¬ 500 ≤ s := by omega
    have hd : (decide (s = 404 ∨ s = 403)) = false := by simp; omega
    simp [attemptSucceeds, hok, h5, h1, hd]
  · intro s h1 h2
    by_cases hc : s < 300
    · have hok : respOk s = true := by simp [respOk]; omega
      simp [attemptSucceeds, hok]
    · have hok : respOk s = false := by simp [respOk]; omega
      have h5 : ¬ 500 ≤ s := by omega
      have h6 : ¬ 400 ≤ s := by omega
      simp [attemptSucceeds, hok, h5, h6]
  · intro cfg hm
    have hcne : adjustConcurrency cfg.delay cfg.proxyQuality ≠ 0 := by
      have := adjustConcurrency_pos cfg.delay cfg.proxyQuality
      omega
    have hall : ∀ b ∈ chunksOf (adjustConcurrency cfg.delay cfg.proxyQuality)
        (generateRequestQueue cfg.impressions), ∀ t ∈ b,
        executeRequest (all404 t.id) cfg.maxRetries = true := by
      intro b _ t _
      exact @executeRequest_first_success (all404 t.id) rfl cfg.maxRetries hm
    obtain ⟨a1, a2, a3, a4, a5, a6⟩ := runBatches_allSucc all404 cfg.maxRetries
      (chunksOf (adjustConcurrency cfg.delay cfg.proxyQuality)
        (generateRequestQueue cfg.impressions))
      (initialState cfg.impressions) rfl hall
    have hsum : ((chunksOf (adjustConcurrency cfg.delay cfg.proxyQuality)
          (generateRequestQueue cfg.impressions)).map List.length).sum
        = cfg.impressions := by
      rw [chunksOf_sum_length _ hcne, generateRequestQueue_length]
    have hq : (runBatches all404 cfg.maxRetries
        (chunksOf (adjustConcurrency cfg.delay cfg.proxyQuality)
          (generateRequestQueue cfg.impressions))
        (initialState cfg.impressions)).retryQueue = [] := by
      rw [a4]
      rfl
    constructor
    · rw [runSession_stats, primaryPass_def, hq]
      simp only [List.isEmpty_nil, if_true]
      rw [a1, a5, hsum]
      simp [initialState]
    · rw [runSession_stats, primaryPass_def, hq]
      simp only [List.isEmpty_nil, if_true]
      rw [a3]
      rfl

/-- Witness for `executor_classification_all404` at status 503, the other-4xx
status 410, status 301, and a concrete two-impression session. -/
theorem executor_classification_all404_witness :
    attemptSucceeds (.http 503) = false
    ∧ attemptSucceeds (.http 410) = false
    ∧ attemptSucceeds (.http 301) = true
    ∧ (runSession all404
        { impressions := 2, delay := 1000, proxyQuality := "balanced",
          maxRetries := 3 }).stats.failed = 0 :=
  ⟨executor_classification_all404.1 503 (by norm_num),
   executor_classification_all404.2.2.2.1 410 (by norm_num) (by norm_num)
     (by norm_num) (by norm_num),
   executor_classification_all404.2.2.2.2.2.1 301 (by norm_num) (by norm_num),
   (executor_classification_all404.2.2.2.2.2.2
     { impressions := 2, delay := 1000, proxyQuality := "balanced",
       maxRetries := 3 } (by norm_num)).2⟩

/-- C4 counterexample: with every request returning HTTP 500 and
`maxRetries = 3`, the single task of a one-impression session enters the
retry queue with its counter at 1 (not 3, since the counter is incremented
once per terminal failure, not once per attempt), it is resubmitted in the
retry pass, and the session ends with `failed = 2` while `total = 1` - not
`failed = total`. -/
theorem retry_exhaustion_counterexample :
    (primaryPass all500 3 1 (generateRequestQueue 1) (initialState 1)).retryQueue
        = [{ id := 1, retryCount := 1 }]
    ∧ (runSession all500
        { impressions := 1, delay := 1000, proxyQuality := "balanced",
          maxRetries := 3 }).stats.failed = 2
    ∧ (runSession all500
        { impressions := 1, delay := 1000, proxyQuality := "balanced",
          maxRetries := 3 }).stats.total = 1 :=
  ⟨by decide, by decide, by decide⟩

/-- C4 amended: in an all-HTTP-500 session with `maxRetries = 3` and at most
1000 impressions, every task exhausts its 3 attempts in the primary pass
(`executeRequest` resolves false), enters the retry queue with its counter
equal to 1 - the counter is incremented once per terminal failure, not per
attempt - so every task IS resubmitted in the retry pass, fails again, and
the session ends with `sent = total`, `successful = 0` and
`failed = 2 * total`. -/
theorem retry_exhaustion_amended (cfg : Config) (hm : cfg.maxRetries = 3)
    (hN : cfg.impressions ≤ 1000) :
    executeRequest (all500 0) cfg.maxRetries = false
    ∧ (∀ u ∈ (primaryPass all500 cfg.maxRetries
          (adjustConcurrency cfg.delay cfg.proxyQuality)
          (generateRequestQueue cfg.impressions)
          (initialState cfg.impressions)).retryQueue, u.retryCount = 1)
    ∧ (primaryPass all500 cfg.maxRetries
          (adjustConcurrency cfg.delay cfg.proxyQuality)
          (generateRequestQueue cfg.impressions)
          (initialState cfg.impressions)).retryQueue.length = cfg.impressions
    ∧ (runSession all500 cfg).stats.sent = cfg.impressions
    ∧ (runSession all500 cfg).stats.successful = 0
    ∧ (runSession all500 cfg).stats.failed = 2 * cfg.impressions := by
  have hfail : ∀ idn, executeRequest (all500 idn) cfg.maxRetries = false :=
    fun idn => @executeRequest_allFail (all500 idn) (fun a => rfl) cfg.maxRetries
  have hcne : adjustConcurrency cfg.delay cfg.proxyQuality ≠ 0 := by
    have := adjustConcurrency_pos cfg.delay cfg.proxyQuality
    omega
  have hb_fail : ∀ b ∈ chunksOf (adjustConcurrency cfg.delay cfg.proxyQuality)
      (generateRequestQueue cfg.impressions), ∀ t ∈ b,
      executeRequest (all500 t.id) cfg.maxRetries = false :=
    fun b _ t _ => hfail t.id
  have hb_rc : ∀ b ∈ chunksOf (adjustConcurrency cfg.delay cfg.proxyQuality)
      (generateRequestQueue cfg.impressions), ∀ t ∈ b, t.retryCount = 0 :=
    fun b hb t ht =>
      generateRequestQueue_retryCount t (mem_of_mem_chunksOf hcne hb ht)
  have hsum : ((chunksOf (adjustConcurrency cfg.delay cfg.proxyQuality)
        (generateRequestQueue cfg.impressions)).map List.length).sum
      = cfg.impressions := by
    rw [chunksOf_sum_length _ hcne, generateRequestQueue_length]
  obtain ⟨p1, p2, p3, p4, p5, p6⟩ := runBatches_allFail all500 cfg.maxRetries
    (by omega) (chunksOf (adjustConcurrency cfg.delay cfg.proxyQuality)
      (generateRequestQueue cfg.impressions))
    (initialState cfg.impressions) rfl hb_fail hb_rc
    (by rw [hsum]; simpa [initialState] using hN)
  have hqEq : (runBatches all500 cfg.maxRetries
      (chunksOf (adjustConcurrency cfg.delay cfg.proxyQuality)
        (generateRequestQueue cfg.impressions))
      (initialState cfg.impressions)).retryQueue
      = (generateRequestQueue cfg.impressions).map
          (fun t => { id := t.id, retryCount := 1 }) := by
    rw [p4, chunksOf_join _ hcne]
    simp [initialState]
  have hqLen : (runBatches all500 cfg.maxRetries
      (chunksOf (adjustConcurrency cfg.delay cfg.proxyQuality)
        (generateRequestQueue cfg.impressions))
      (initialState cfg.impressions)).retryQueue.length = cfg.impressions := by
    rw [hqEq, List.length_map, generateRequestQueue_length]
  refine ⟨hfail 0, ?_, ?_, ?_, ?_, ?_⟩
  · intro u hu
    rw [primaryPass_def, hqEq] at hu
    obtain ⟨t, _, heq⟩ := List.mem_map.mp hu
    rw [← heq]
  · rw [primaryPass_def]
    exact hqLen
  · rw [runSession_stats, primaryPass_def]
    by_cases hemp : (runBatches all500 cfg.maxRetries
        (chunksOf (adjustConcurrency cfg.delay cfg.proxyQuality)
          (generateRequestQueue cfg.impressions))
        (initialState cfg.impressions)).retryQueue.isEmpty = true
    · rw [if_pos hemp, p1, hsum]
      simp [initialState]
    · rw [if_neg hemp,
        (processRetryQueue_statsFrame all500 cfg.maxRetries
          (adjustConcurrency cfg.delay cfg.proxyQuality) _).1, p1, hsum]
      simp [initialState]
  · rw [runSession_stats, primaryPass_def]
    by_cases hemp : (runBatches all500 cfg.maxRetries
        (chunksOf (adjustConcurrency cfg.delay cfg.proxyQuality)
          (generateRequestQueue cfg.impressions))
        (initialState cfg.impressions)).retryQueue.isEmpty = true
    · rw [if_pos hemp, p3]
      rfl
    · rw [if_neg hemp,
        (processRetryQueue_allFail all500 cfg.maxRetries
          (adjustConcurrency cfg.delay cfg.proxyQuality) _ p6 hfail).2.1, p3]
      rfl
  · rw [runSession_stats, primaryPass_def]
    by_cases hemp : (runBatches all500 cfg.maxRetries
        (chunksOf (adjustConcurrency cfg.delay cfg.proxyQuality)
          (generateRequestQueue cfg.impressions))
        (initialState cfg.impressions)).retryQueue.isEmpty = true
    · have hnil := List.isEmpty_iff.mp hemp
      have h0 : cfg.impressions = 0 := by
        rw [hnil] at hqLen
        simpa using hqLen.symm
      rw [if_pos hemp, p2, hsum, h0]
      simp [initialState]
    · rw [if_neg hemp,
        (processRetryQueue_allFail all500 cfg.maxRetries
          (adjustConcurrency cfg.delay cfg.proxyQuality) _ p6 hfail).1,
        hqLen, p2, hsum]
      simp [initialState]
      omega

/-- Witness for `retry_exhaustion_amended`: an all-500 two-impression
session ends with `failed = 4 = 2 * total`. -/
theorem retry_exhaustion_amended_witness :
    (runSession all500
        { impressions := 2, delay := 1000, proxyQuality := "balanced",
          maxRetries := 3 }).stats.failed = 2 * 2 :=
  (retry_exhaustion_amended
    { impressions := 2, delay := 1000, proxyQuality := "balanced",
      maxRetries := 3 } rfl (by norm_num)).2.2.2.2.2

/-- C5: a terminally failed task is admitted to the retry queue exactly when
the queue holds fewer than 1000 entries and its incremented counter is at
most `maxRetries`; every task in the retry queue of the primary pass has its
counter at most `maxRetries`, and every task created by the builder starts
with counter 0 (so, for `maxRetries ≥ 1`, no task's counter ever exceeds
`maxRetries`). -/
theorem retry_admission_bound (m : Nat) (hm : 1 ≤ m) (s : SessionState)
    (t : Task) (oracle : Nat → Nat → FetchResult) (c n : Nat) :
    ((processResult m s (t, false)).retryQueue
        = if s.retryQueue.length < 1000 ∧ t.retryCount + 1 ≤ m
          then s.retryQueue ++ [{ id := t.id, retryCount := t.retryCount + 1 }]
          else s.retryQueue)
    ∧ (∀ u ∈ (primaryPass oracle m c (generateRequestQueue n)
        (initialState n)).retryQueue, u.retryCount ≤ m)
    ∧ (∀ u ∈ generateRequestQueue n, u.retryCount = 0) := by
  refine ⟨processResult_fail_queue m s t, ?_, generateRequestQueue_retryCount⟩
  rw [primaryPass_def]
  exact runBatches_queueBound oracle m _ (initialState n) (by intro u hu; simp [initialState] at hu)

/-- Witness for `retry_admission_bound` on a fresh session state. -/
theorem retry_admission_bound_witness :
    (processResult 1 (initialState 0)
        ({ id := 1, retryCount := 0 }, false)).retryQueue
      = if (initialState 0).retryQueue.length < 1000
          ∧ ({ id := 1, retryCount := 0 } : Task).retryCount + 1 ≤ 1
        then (initialState 0).retryQueue
          ++ [{ id := ({ id := 1, retryCount := 0 } : Task).id,
                retryCount := ({ id := 1, retryCount := 0 } : Task).retryCount + 1 }]
        else (initialState 0).retryQueue :=
  (retry_admission_bound 1 (Nat.le_refl 1) (initialState 0)
    { id := 1, retryCount := 0 } allNetErr 1 1).1

/-- C8 counterexample: after the first (and only) request of a session fails
terminally, the batch counters show `sent = 1`, `successful = 0`, yet
`getStats()` still reports a success rate of 100, not 0: the tracker
recomputed the rate inside `executeRequest`, before `processBatchResults`
incremented the counters, and nothing recomputes it afterwards. -/
theorem successRate_stale_counterexample :
    (getStats (primaryPass allNetErr 3 1 (generateRequestQueue 1)
        (initialState 1))).2.successRate = 100
    ∧ (primaryPass allNetErr 3 1 (generateRequestQueue 1)
        (initialState 1)).stats.sent = 1
    ∧ (primaryPass allNetErr 3 1 (generateRequestQueue 1)
        (initialState 1)).stats.successful = 0
    ∧ (100 : ℚ) ≠ 0 :=
  ⟨by decide, by decide, by decide, by norm_num⟩

/-- C8 amended: the tracker's success rate is 100 whenever the `sent`
counter it reads is 0 (the guard, plus the seed value; never NaN or
undefined); but the rate is recomputed only inside `executeRequest`, before
the batch counters are updated, so after a first single-request batch
settles - successful or not - `getStats()` reports the rate computed while
`sent` was still 0, namely 100, even though `sent` is now 1; a rate of 0
appears only once a later terminal attempt recomputes it. -/
theorem successRate_guard_amended (stats : Stats) (perf : Performance)
    (d e : ℚ) (b : Bool) (st : SessionState) (t : Task) (m : Nat)
    (oracle : Nat → Nat → FetchResult)
    (h0 : stats.sent = 0) (h1 : st.stats.sent = 0) :
    (updatePerformanceMetrics stats perf d e b).successRate = 100
    ∧ (∀ n : Nat, (initialState n).performance.successRate = 100)
    ∧ (getStats (batchStep oracle m st [t])).2.successRate = 100
    ∧ (batchStep oracle m st [t]).stats.sent = 1 := by
  refine ⟨?_, fun n => rfl, ?_, ?_⟩
  · simp [updatePerformanceMetrics, h0]
  · show (processBatchResults m (runBatchPerf oracle m st [t])
        (batchResults oracle m [t])).performance.successRate = 100
    rw [(processBatchResults_frame m (batchResults oracle m [t])
      (runBatchPerf oracle m st [t])).2.2]
    show (updatePerf st (executeRequest (oracle t.id) m)).performance.successRate = 100
    simp [updatePerf, updatePerformanceMetrics, h1]
  · rw [batchStep_sent, h1]
    rfl

/-- Witness for `successRate_guard_amended` on a fresh session state. -/
theorem successRate_guard_amended_witness :
    (updatePerformanceMetrics (initialState 1).stats (initialState 1).performance
        0 1 false).successRate = 100
    ∧ (batchStep allNetErr 3 (initialState 1) [{ id := 1, retryCount := 0 }]).stats.sent = 1 :=
  ⟨(successRate_guard_amended (initialState 1).stats (initialState 1).performance
      0 1 false (initialState 1) { id := 1, retryCount := 0 } 3 allNetErr
      rfl rfl).1,
   (successRate_guard_amended (initialState 1).stats (initialState 1).performance
      0 1 false (initialState 1) { id := 1, retryCount := 0 } 3 allNetErr
      rfl rfl).2.2.2⟩

/-- C9: `stop()` while running clears the running flag and aborts every
cancellation controller of the in-flight batch; a second `stop()` changes
nothing further and aborts nothing; with the running flag cleared, the batch
loop dispatches no further batch (the state is untouched), and the
retry-queue processor performs no work: it executes zero chunks and leaves
every counter unchanged. -/
theorem stop_semantics (s t : SessionState) (cs : List Controller)
    (oracle : Nat → Nat → FetchResult) (m c : Nat) (bs : List (List Task))
    (hcb : s.currentBatch = some cs) (ht : t.isRunning = false) :
    (stop s).1.isRunning = false
    ∧ (stop s).2 = abortAll cs
    ∧ (∀ ctrl ∈ (stop s).2, ctrl.aborted = true)
    ∧ stop (stop s).1 = ((stop s).1, [])
    ∧ runBatches oracle m bs t = t
    ∧ (processRetryQueue oracle m c t).stats = t.stats := by
  have h1 : stop s
      = ({ s with isRunning := false, currentBatch := none }, abortAll cs) := by
    unfold stop
    rw [hcb]
  refine ⟨?_, ?_, ?_, ?_, runBatches_notRunning oracle m bs t ht,
    processRetryQueue_notRunning oracle m c t ht⟩
  · rw [h1]
  · rw [h1]
  · rw [h1]
    intro ctrl hc
    simp only [abortAll, List.mem_map] at hc
    obtain ⟨x, _, heq⟩ := hc
    rw [← heq]
  · rw [h1]
    rfl

/-- Witness for `stop_semantics` on a session with one pending controller. -/
theorem stop_semantics_witness :
    (stop { initialState 1 with
        currentBatch := some [{ aborted := false }] }).1.isRunning = false
    ∧ runBatches allNetErr 1 [[{ id := 1, retryCount := 0 }]]
        { initialState 1 with isRunning := false }
      = { initialState 1 with isRunning := false } :=
  ⟨(stop_semantics
      { initialState 1 with currentBatch := some [{ aborted := false }] }
      { initialState 1 with isRunning := false }
      [{ aborted := false }] allNetErr 1 1
      [[{ id := 1, retryCount := 0 }]] rfl rfl).1,
   (stop_semantics
      { initialState 1 with currentBatch := some [{ aborted := false }] }
      { initialState 1 with isRunning := false }
      [{ aborted := false }] allNetErr 1 1
      [[{ id := 1, retryCount := 0 }]] rfl rfl).2.2.2.2.1⟩

/-- C10 counterexample: for a finalized session with `sent = 0` and a
positive elapsed duration (here 5 s), the summary average rate is
`0 / 5 = 0` - a defined number, not the claimed `0 / 0` (NaN). -/
theorem complete_avgRate_counterexample :
    completeAverageRate
        { sent := 0, successful := 0, failed := 0, total := 5, batchCount := 0 } 5
      = some 0
    ∧ some (0 : ℚ) ≠ (none : Option ℚ) := by
  constructor
  · simp [completeAverageRate, jsDiv]
  · simp

/-- C10 amended: if a session reaches finalization with `sent = 0`,
`complete()` computes the summary success rate as `0 / 0` with no
`sent > 0` guard, so the persisted summary holds NaN where the tracker
would report 100; the summary average rate, however, is `sent / elapsed =
0 / elapsed`, which is the defined value 0 for any positive elapsed
duration (it is NaN only in the degenerate zero-duration case). -/
theorem complete_nan_amended (stats : Stats) (dur : ℚ) (perf : Performance)
    (d e : ℚ) (b : Bool) (h0 : stats.sent = 0) (h1 : stats.successful = 0) :
    completeSuccessRate stats = none
    ∧ (updatePerformanceMetrics stats perf d e b).successRate = 100
    ∧ (0 < dur → completeAverageRate stats dur = some 0) := by
  refine ⟨?_, ?_, fun hdur => ?_⟩
  · simp [completeSuccessRate, jsDiv, h0]
  · simp [updatePerformanceMetrics, h0]
  · simp [completeAverageRate, jsDiv, h0, hdur.ne']

/-- Witness for `complete_nan_amended` at the all-zero counters and a 5 s
duration. -/
theorem complete_nan_amended_witness :
    completeSuccessRate
        { sent := 0, successful := 0, failed := 0, total := 3, batchCount := 0 }
      = none
    ∧ completeAverageRate
        { sent := 0, successful := 0, failed := 0, total := 3, batchCount := 0 } 5
      = some 0 :=
  ⟨(complete_nan_amended
      { sent := 0, successful := 0, failed := 0, total := 3, batchCount := 0 }
      5 { averageResponseTime := 0, requestsPerSecond := 0, successRate := 100 }
      0 1 false rfl rfl).1,
   (complete_nan_amended
      { sent := 0, successful := 0, failed := 0, total := 3, batchCount := 0 }
      5 { averageResponseTime := 0, requestsPerSecond := 0, successRate := 100 }
      0 1 false rfl rfl).2.2 (by norm_num)⟩

end TrafficSender
